import Mathlib

/-!
Verification of the Petit Français learning app (src/) against its
specification.  The service layer (src/services/geminiService.ts), the
mastery computation (src/components/CategoryGrid.tsx, src/App.tsx) and the
speaking-session resource/playback logic (src/components/SpeakingView.tsx)
are shallowly embedded below.  External effects are made explicit:

* `localStorage` is a value of type `RawStore` (string keys to optional raw
  strings); where the JSON (de)serialisation boundary is irrelevant to a
  statement the list-level view `ContentStore` is used, in which a stored
  value is the parsed `WordItem` list itself.
* `JSON.parse` is an opaque browser primitive, so functions that call it take
  an explicit `parse : String → Option (List WordItem)` parameter; `none`
  models a parse exception.
* One network round trip of `ai.models.generateContent` is modelled by a
  `GenOutcome` argument (transport failure, or a response with an optional
  text body); the prompt strings do not influence any verified property and
  are not reproduced.
* Clock values (the `AudioContext` time line) are modelled as exact
  rationals.  JavaScript numbers are IEEE doubles, but every property proved
  here is an order/equality fact preserved by the embedding.
-/

namespace PetitFrancais

/-! ### Data model (src/types.ts) -/

/-- One conjugated form, from the `conjugations` entries of `WordItem`. -/
structure Conjugation where
  subject : String
  form : String
deriving DecidableEq

/-- One extra example pair, from the `multipleExamples` entries of `WordItem`. -/
structure ExamplePair where
  text : String
  translation : String
deriving DecidableEq

/-- A flashcard content item (interface `WordItem` in src/types.ts; the field
`example` is renamed `exampleText` because `example` is a Lean keyword). -/
structure WordItem where
  french : String
  english : String
  exampleText : String
  exampleEnglish : String
  feminine : Option String := none
  phonetic : Option String := none
  imageUrl : Option String := none
  articleType : Option String := none
  isOverview : Option Bool := none
  conjugations : Option (List Conjugation) := none
  multipleExamples : Option (List ExamplePair) := none
deriving DecidableEq

/-- A progress-history entry (interface `HistoryItem` in src/types.ts);
`score` is a natural number: every score written by the app is a non-negative
integer number of points. -/
structure HistoryItem where
  date : String
  category : String
  subcategory : String
  score : Nat
  powerRating : Option Nat := none
deriving DecidableEq

/-! ### Storage (localStorage facade in src/services/geminiService.ts) -/

/-- Raw view of `localStorage`: keys to optional raw JSON strings. -/
def RawStore : Type := String → Option String

/-- List-level view of the content cache: each key holds the parsed list that
the raw store would hold in serialised form. -/
def ContentStore : Type := String → Option (List WordItem)

/-- The full storage key for a topic: `STORAGE_KEY_PREFIX + subId` with the
constant set to the string below (src/services/geminiService.ts line 8). -/
def contentKey (subId : String) : String := "petits_content_" ++ subId

/-- `getStoredContent` (src/services/geminiService.ts lines 80-89): absent key
gives the empty list; a raw value whose parse throws (modelled by `parse`
returning `none`) is caught and also gives the empty list. -/
def getStoredContent (parse : String → Option (List WordItem)) (store : RawStore)
    (subId : String) : List WordItem :=
  match store (contentKey subId) with
  | none => []
  | some raw =>
    match parse raw with
    | none => []
    | some items => items

/-- List-level counterpart of `getStoredContent` used by `seedContent`: the
stored list for a key, or the empty list when absent (a corrupt raw value
corresponds to `none` at this level). -/
def storedItems (store : ContentStore) (subId : String) : List WordItem :=
  (store (contentKey subId)).getD []

/-! ### Response-text cleanup (src/services/geminiService.ts line 190)

`rawText.trim().replace(/^(three backticks)json\s*/, "").replace(/\s*(three
backticks)$/, "")`, rebuilt over character lists so that every function
kernel-evaluates. -/

/-- Remove leading and trailing whitespace (the `trim()` call). -/
def trimChars (l : List Char) : List Char :=
  ((l.dropWhile Char.isWhitespace).reverse.dropWhile Char.isWhitespace).reverse

/-- Strip an opening code fence `(three backticks)json` plus following
whitespace, when present at the start. -/
def stripOpenFence (l : List Char) : List Char :=
  if List.isPrefixOf ("```json".toList) l then
    (l.drop 7).dropWhile Char.isWhitespace
  else l

/-- Strip a closing code fence (three backticks) plus preceding whitespace,
when present at the end. -/
def stripCloseFence (l : List Char) : List Char :=
  if List.isSuffixOf ("```".toList) l then
    ((l.take (l.length - 3)).reverse.dropWhile Char.isWhitespace).reverse
  else l

/-- The cleaned response text handed to `JSON.parse`. -/
def cleanedText (rawText : String) : String :=
  String.mk (stripCloseFence (stripOpenFence (trimChars rawText.toList)))

/-! ### Content seeding (src/services/geminiService.ts lines 91-205) -/

/-- Result of the one awaited `generateContent` call inside `seedContent`:
either the transport/generation call threw, or it resolved with an optional
text body (`response.text` may be undefined, hence `Option`). -/
inductive GenOutcome where
  | transportError : GenOutcome
  | response (text : Option String) : GenOutcome
deriving DecidableEq

/-- `['present', 'past', 'future'].includes(subcategory)` (line 95). -/
def isVerbTense (subcategory : String) : Bool :=
  ["present", "past", "future"].contains subcategory

/-- The per-batch seeding threshold (line 102): verbs are heavy, so 12,
everything else 15.  Seeding is skipped when the cache already holds this
many items. -/
def seedLimit (subcategory : String) : Nat :=
  if isVerbTense subcategory then 12 else 15

/-- The storage identifier (line 92): `subcategory ++ "_" ++ extraParam` when
the extra parameter is present, the bare subcategory otherwise. -/
def storageId (subcategory : String) (extraParam : Option String) : String :=
  match extraParam with
  | some e => subcategory ++ "_" ++ e
  | none => subcategory

/-- What a `seedContent` call produces: the returned list, the storage state
after the call, and whether a generation request was issued. -/
structure SeedResult where
  items : List WordItem
  store : ContentStore
  requested : Bool

/-- `seedContent` (src/services/geminiService.ts lines 91-205).  Reads the
cache, early-returns when the cached count reaches the per-batch threshold,
otherwise issues one generation request (`outcome`).  On success the cleaned
text is parsed; on a parse exception (inner catch, line 197) or transport
failure (outer catch, line 201) the existing cache is returned with no write.
On a successful parse the existing items are extended with the new ones,
truncated at 40 (`slice(0, 40)`, line 194), written back and returned.
The `_ctype` argument only shapes the prompt in the source and is retained
for signature fidelity. -/
def seedContent (parse : String → Option (List WordItem)) (store : ContentStore)
    (subcategory _ctype : String) (extraParam : Option String)
    (outcome : GenOutcome) : SeedResult :=
  if seedLimit subcategory ≤ (storedItems store (storageId subcategory extraParam)).length then
    ⟨storedItems store (storageId subcategory extraParam), store, false⟩
  else
    match outcome with
    | GenOutcome.transportError =>
      ⟨storedItems store (storageId subcategory extraParam), store, true⟩
    | GenOutcome.response text =>
      match parse (cleanedText (text.getD ("[]"))) with
      | none => ⟨storedItems store (storageId subcategory extraParam), store, true⟩
      | some newItems =>
        ⟨((storedItems store (storageId subcategory extraParam)) ++ newItems).take 40,
         fun k =>
           if k = contentKey (storageId subcategory extraParam) then
             some (((storedItems store (storageId subcategory extraParam)) ++ newItems).take 40)
           else store k,
         true⟩

/-- The per-batch threshold of the superseded seeding variant
(src/unnamed/part_000 line 93): 50 for articles, verb tenses, vocabulary and
speaking topics, 20 otherwise. -/
def seedLimitLegacy (subcategory ctype : String) : Nat :=
  if subcategory = "articles" ∨ isVerbTense subcategory
      ∨ ctype = "VOCABULARY" ∨ ctype = "SPEAKING" then 50 else 20

/-- The superseded seeding variant (src/unnamed/part_000 lines 84-218): same
shape as `seedContent` but with thresholds 50/20, truncation at 100
(`slice(0, 100)`, line 211), no code-fence cleanup, and the parse exception
landing in the single outer catch. -/
def seedContentLegacy (parse : String → Option (List WordItem)) (store : ContentStore)
    (subcategory ctype : String) (extraParam : Option String)
    (outcome : GenOutcome) : SeedResult :=
  if seedLimitLegacy subcategory ctype ≤ (storedItems store (storageId subcategory extraParam)).length then
    ⟨storedItems store (storageId subcategory extraParam), store, false⟩
  else
    match outcome with
    | GenOutcome.transportError =>
      ⟨storedItems store (storageId subcategory extraParam), store, true⟩
    | GenOutcome.response text =>
      match parse (text.getD ("[]")) with
      | none => ⟨storedItems store (storageId subcategory extraParam), store, true⟩
      | some newItems =>
        ⟨((storedItems store (storageId subcategory extraParam)) ++ newItems).take 100,
         fun k =>
           if k = contentKey (storageId subcategory extraParam) then
             some (((storedItems store (storageId subcategory extraParam)) ++ newItems).take 100)
           else store k,
         true⟩

/-- The failure condition of one `seedContent` generation round trip: either
the transport threw, or the cleaned response text does not parse. -/
def failedGeneration (parse : String → Option (List WordItem))
    (outcome : GenOutcome) : Prop :=
  match outcome with
  | GenOutcome.transportError => True
  | GenOutcome.response text => parse (cleanedText (text.getD ("[]"))) = none

/-! ### Image generation error policy (src/services/geminiService.ts
lines 207-243) -/

/-- JavaScript `String.prototype.includes`: substring containment. -/
def strIncludes (s sub : String) : Bool :=
  s.toList.tails.any (fun t => List.isPrefixOf sub.toList t)

/-- How a failed image generation surfaces to the caller: a named sentinel
(`new Error("API_KEY_RESET")` or `new Error("QUOTA_EXHAUSTED")`), or the
original error re-thrown unchanged (line 240). -/
inductive ImageFailure where
  | sentinel (code : String)
  | rethrown (message : String)
deriving DecidableEq

/-- The catch block of `generateEducationalImage` (lines 231-241): substring
classification of `error.message` into the two sentinels, with everything
else re-thrown as-is. -/
def classifyImageError (message : String) : ImageFailure :=
  if strIncludes message ("Requested entity was not found")
      || strIncludes message ("API key not valid") then
    ImageFailure.sentinel ("API_KEY_RESET")
  else if strIncludes message ("RESOURCE_EXHAUSTED") || strIncludes message ("quota") then
    ImageFailure.sentinel ("QUOTA_EXHAUSTED")
  else
    ImageFailure.rethrown message

/-- Result of the one awaited image-generation call: success with the
response parts (each part optionally carrying inline base64 data), or a
thrown error carrying a message. -/
inductive ImageOutcome where
  | success (parts : List (Option String))
  | failure (message : String)

/-- `generateEducationalImage` (lines 207-243): on success return the first
inline-data part as a data URL, falling through to `null` (here `none`) when
no part carries data; on failure classify the message and throw the result
(`Except.error`). -/
def generateEducationalImage (outcome : ImageOutcome) :
    Except ImageFailure (Option String) :=
  match outcome with
  | ImageOutcome.success parts =>
    match parts.findSome? id with
    | some data => Except.ok (some ("data:image/png;base64," ++ data))
    | none => Except.ok none
  | ImageOutcome.failure message => Except.error (classifyImageError message)

/-! ### Mastery / power rating (src/components/CategoryGrid.tsx lines 12-21,
src/App.tsx lines 126-135, src/unnamed/part_010 lines 220-233) -/

/-- `MASTERY_SCORE` (src/components/CategoryGrid.tsx line 12): 500 points is
100 percent mastery. -/
def MASTERY_SCORE : Nat := 500

/-- `Math.round (num / den)` for non-negative operands: round half away from
zero, i.e. the floor of `num/den + 1/2`.  For the quantities this program
rounds (`points * 100 / 500`) the fractional part is always a multiple of
one fifth, so no half-way case arises and the IEEE-double computation of the
source agrees with this exact rational rounding. -/
def roundHalfUp (num den : Nat) : Nat := (2 * num + den) / (2 * den)

/-- `Math.min(Math.round((points / MASTERY_SCORE) * 100), 100)`
(src/components/CategoryGrid.tsx line 21; the identical formula appears in
src/unnamed/part_010 lines 92 and 224). -/
def powerRating (points : Nat) : Nat :=
  min (roundHalfUp (points * 100) MASTERY_SCORE) 100

/-- The per-topic points aggregation (src/unnamed/part_010 lines 204-209):
the sum of the scores of the history entries for one subcategory. -/
def subcategoryStats (history : List HistoryItem) (subName : String) : Nat :=
  ((history.filter (fun h => h.subcategory == subName)).map (fun h => h.score)).sum

/-! ### Speaking-session resources (src/components/SpeakingView.tsx) -/

/-- The resources a running speaking session holds, with call counters so
that release-exactly-once statements can be made.  `sessionHandle` models
`sessionRef.current`, `animationFrame` models `animationFrameRef.current`
(the id of the last requested frame), `frameLoopRunning` whether a frame
callback is still pending, and `micLive` whether the `getUserMedia` stream
acquired in `startSession` (line 144) still has running tracks. -/
structure SpeakingState where
  sessionHandle : Option Nat
  sessionOpen : Bool
  animationFrame : Option Nat
  frameLoopRunning : Bool
  micLive : Bool
  isActive : Bool
  sessionCloseCalls : Nat
  cancelCalls : Nat
  micStopCalls : Nat
deriving DecidableEq

/-- `stopSession` (src/components/SpeakingView.tsx lines 279-288): close and
null the session handle when present, cancel the pending animation frame
when a handle was recorded (the ref itself is not nulled in the source), and
clear the active flag.  No statement of the source touches the microphone
stream, so `micLive` and `micStopCalls` are unchanged. -/
def stopSession (s : SpeakingState) : SpeakingState :=
  let s1 :=
    if s.sessionHandle.isSome then
      { s with sessionHandle := none, sessionOpen := false,
               sessionCloseCalls := s.sessionCloseCalls + 1 }
    else s
  let s2 :=
    if s1.animationFrame.isSome then
      { s1 with frameLoopRunning := false, cancelCalls := s1.cancelCalls + 1 }
    else s1
  { s2 with isActive := false }

/-- A state in which a speaking session is fully active: open session handle,
pending animation frame, live microphone capture, no release performed yet. -/
def activeSpeakingState : SpeakingState :=
  { sessionHandle := some 1, sessionOpen := true, animationFrame := some 2,
    frameLoopRunning := true, micLive := true, isActive := true,
    sessionCloseCalls := 0, cancelCalls := 0, micStopCalls := 0 }

/-! ### Audio playback scheduling (src/components/SpeakingView.tsx
lines 240-257) -/

/-- A scheduled output clip: the `source.start` argument and the buffer
duration. -/
structure ScheduledClip where
  start : ℚ
  duration : ℚ
deriving DecidableEq

/-- The playback bookkeeping of the message handler: `nextStartTimeRef` and
the `sourcesRef` set of clips not yet ended (kept as a list; membership is
what matters). -/
structure PlaybackState where
  nextStartTime : ℚ
  sources : List ScheduledClip

/-- Handling one inbound audio payload (lines 240-251): clamp the cursor to
`now` (`nextStartTime = max(nextStartTime, currentTime)`), start the clip at
the cursor, advance the cursor by the clip duration, and track the clip.
Returns the scheduled clip and the next state. -/
def onAudioMessage (s : PlaybackState) (now duration : ℚ) :
    ScheduledClip × PlaybackState :=
  (⟨max s.nextStartTime now, duration⟩,
   ⟨max s.nextStartTime now + duration,
    s.sources ++ [⟨max s.nextStartTime now, duration⟩]⟩)

/-- Handling an interruption signal (lines 253-257): `stop()` every tracked
clip, clear the tracking set, and set the cursor to `0`.  Returns the clips
that were stopped and the next state. -/
def onInterrupted (s : PlaybackState) : List ScheduledClip × PlaybackState :=
  (s.sources, ⟨0, []⟩)

/-! ### Concrete sample data for witnesses and counterexamples -/

/-- A sample vocabulary item. -/
def sampleItem : WordItem :=
  { french := "le chat", english := "the cat",
    exampleText := "Le chat dort", exampleEnglish := "The cat sleeps" }

/-- A second, distinct sample item. -/
def sampleItem2 : WordItem :=
  { french := "le chien", english := "the dog",
    exampleText := "Le chien court", exampleEnglish := "The dog runs" }

/-- A parse model that fails on every input (every string raises in
`JSON.parse`). -/
def parseNone : String → Option (List WordItem) := fun _ => none

/-- A parse model that yields five items for the body `five` and fails
otherwise. -/
def parseFive : String → Option (List WordItem) :=
  fun s => if s = "five" then some (List.replicate 5 sampleItem2) else none

/-- A parse model that yields thirty items for the body `thirty` and fails
otherwise. -/
def parseThirty : String → Option (List WordItem) :=
  fun s => if s = "thirty" then some (List.replicate 30 sampleItem2) else none

/-- A content store holding exactly 38 items for the topic `animals`. -/
def store38 : ContentStore :=
  fun k => if k = contentKey ("animals") then some (List.replicate 38 sampleItem) else none

/-- A content store holding exactly 40 items for the topic `animals`. -/
def store40 : ContentStore :=
  fun k => if k = contentKey ("animals") then some (List.replicate 40 sampleItem) else none

/-- A content store holding exactly 14 items for the topic `colors`. -/
def store14 : ContentStore :=
  fun k => if k = contentKey ("colors") then some (List.replicate 14 sampleItem) else none

/-- The empty content store. -/
def storeEmpty : ContentStore := fun _ => none

/-- A raw store with no entry for `animals` and an unparseable entry for
`colors`. -/
def rawStoreCorrupt : RawStore :=
  fun k => if k = contentKey ("colors") then some ("not json") else none

/-- A playback state with the cursor at 5 and one clip scheduled at 3 for 2
seconds, used for the interruption scenarios. -/
def interruptionScenarioState : PlaybackState := ⟨5, [⟨3, 2⟩]⟩

/-! ## Theorems -/

/-- Claim C1: every write `seedContent` performs truncates at the fixed cap,
so seeding preserves the invariant that the persisted content list of every
topic stays within the cap — 40 items in the current service
(src/services/geminiService.ts line 194), 100 items in the superseded
variant (src/unnamed/part_000 line 211). -/
theorem seedContent_preserves_cap :
    (∀ parse store sub ty ep outcome,
      (∀ k, ((store k).getD []).length ≤ 40) →
      ∀ k, (((seedContent parse store sub ty ep outcome).store k).getD []).length ≤ 40) ∧
    (∀ parse store sub ty ep outcome,
      (∀ k, ((store k).getD []).length ≤ 100) →
      ∀ k, (((seedContentLegacy parse store sub ty ep outcome).store k).getD []).length ≤ 100) := by
  constructor
  · intro parse store sub ty ep outcome hinv k
    unfold seedContent
    split
    · exact hinv k
    · split
      · exact hinv k
      · split
        · exact hinv k
        · by_cases hk : k = contentKey (storageId sub ep)
          · simp [hk, List.length_take]
          · simp only [if_neg hk]
            exact hinv k
  · intro parse store sub ty ep outcome hinv k
    unfold seedContentLegacy
    split
    · exact hinv k
    · split
      · exact hinv k
      · split
        · exact hinv k
        · by_cases hk : k = contentKey (storageId sub ep)
          · simp [hk, List.length_take]
          · simp only [if_neg hk]
            exact hinv k

/-- Witness for `seedContent_preserves_cap`: seeding the empty store keeps
every topic within the cap in both variants. -/
theorem seedContent_preserves_cap_witness :
    (((seedContent parseFive storeEmpty ("animals") ("VOCABULARY") none
        (GenOutcome.response (some ("five")))).store (contentKey ("animals"))).getD []).length ≤ 40 ∧
    (((seedContentLegacy parseFive storeEmpty ("animals") ("VOCABULARY") none
        (GenOutcome.response (some ("five")))).store (contentKey ("animals"))).getD []).length ≤ 100 :=
  ⟨seedContent_preserves_cap.1 parseFive storeEmpty ("animals") ("VOCABULARY") none
      (GenOutcome.response (some ("five")))
      (fun k => by simp [storeEmpty]) (contentKey ("animals")),
   seedContent_preserves_cap.2 parseFive storeEmpty ("animals") ("VOCABULARY") none
      (GenOutcome.response (some ("five")))
      (fun k => by simp [storeEmpty]) (contentKey ("animals"))⟩

/-- Claim C2: once a topic caches at least 40 items (the cap), any further
`seedContent` call issues no generation request, returns the cached list
unchanged and leaves storage untouched — the early return of
src/services/geminiService.ts line 104 fires because the per-batch threshold
never exceeds 15. -/
theorem seedContent_idempotent_at_cap :
    ∀ parse store sub ty ep outcome,
      40 ≤ (storedItems store (storageId sub ep)).length →
      (seedContent parse store sub ty ep outcome).items = storedItems store (storageId sub ep) ∧
      (seedContent parse store sub ty ep outcome).store = store ∧
      (seedContent parse store sub ty ep outcome).requested = false := by
  intro parse store sub ty ep outcome h
  have hlim : seedLimit sub ≤ 40 := by
    unfold seedLimit
    split <;> omega
  unfold seedContent
  rw [if_pos (le_trans hlim h)]
  exact ⟨rfl, rfl, rfl⟩

/-- Witness for `seedContent_idempotent_at_cap`: a topic with 40 cached items
triggers no request. -/
theorem seedContent_idempotent_at_cap_witness :
    (seedContent parseNone store40 ("animals") ("VOCABULARY") none
        GenOutcome.transportError).requested = false :=
  (seedContent_idempotent_at_cap parseNone store40 ("animals") ("VOCABULARY") none
      GenOutcome.transportError (by decide)).2.2

/-- Claim C3: when the generation transport fails or the response body does
not parse, `seedContent` returns exactly the pre-call cached list and
performs no write — the two catch blocks of src/services/geminiService.ts
lines 197-204.  The embedding is a total function, matching the source
contract that neither path throws to the caller. -/
theorem seedContent_failure_returns_cache :
    ∀ parse store sub ty ep outcome, failedGeneration parse outcome →
      (seedContent parse store sub ty ep outcome).items = storedItems store (storageId sub ep) ∧
      (seedContent parse store sub ty ep outcome).store = store := by
  intro parse store sub ty ep outcome hfail
  by_cases hc : seedLimit sub ≤ (storedItems store (storageId sub ep)).length
  · unfold seedContent
    rw [if_pos hc]
    exact ⟨rfl, rfl⟩
  · cases outcome with
    | transportError =>
      unfold seedContent
      rw [if_neg hc]
      exact ⟨rfl, rfl⟩
    | response text =>
      have hf : parse (cleanedText (text.getD ("[]"))) = none := hfail
      simp only [seedContent]
      rw [if_neg hc, hf]
      exact ⟨rfl, rfl⟩

/-- Witness for `seedContent_failure_returns_cache`: a malformed response on
an empty cache returns the empty list. -/
theorem seedContent_failure_returns_cache_witness :
    (seedContent parseNone storeEmpty ("animals") ("VOCABULARY") none
        (GenOutcome.response (some ("oops")))).items = [] := by
  have h := seedContent_failure_returns_cache parseNone storeEmpty ("animals") ("VOCABULARY")
    none (GenOutcome.response (some ("oops"))) rfl
  rw [h.1]
  rfl

/-- Counterexample to claim C9 as stated: with 38 of 40 items cached, a seed
call whose response would yield 5 new items does not produce a 40-item list;
the cached count already meets the per-batch threshold (15), so the call
early-returns the 38 items and issues no generation request at all. -/
theorem seed_at_38_counterexample :
    ¬ ((seedContent parseFive store38 ("animals") ("VOCABULARY") none
        (GenOutcome.response (some ("five")))).items.length = 40) ∧
    (seedContent parseFive store38 ("animals") ("VOCABULARY") none
        (GenOutcome.response (some ("five")))).requested = false := by
  constructor
  · decide
  · decide

/-- Claim C9 amended: on a seed call whose response parses to new items, if
the cached count is below the per-batch threshold (12 for verb tenses, 15
otherwise) the stored and returned list is the existing items followed by
the new ones truncated at the 40 cap; at or above the threshold (such as the
38-item scenario) the call returns the existing list unchanged without a
generation request. -/
theorem seed_truncation_behavior :
    ∀ parse store sub ty ep (text : Option String) newItems,
      parse (cleanedText (text.getD ("[]"))) = some newItems →
      if (storedItems store (storageId sub ep)).length < seedLimit sub then
        (seedContent parse store sub ty ep (GenOutcome.response text)).items =
          ((storedItems store (storageId sub ep)) ++ newItems).take 40 ∧
        (seedContent parse store sub ty ep (GenOutcome.response text)).store
            (contentKey (storageId sub ep)) =
          some (((storedItems store (storageId sub ep)) ++ newItems).take 40) ∧
        (seedContent parse store sub ty ep (GenOutcome.response text)).requested = true
      else
        (seedContent parse store sub ty ep (GenOutcome.response text)).items =
          storedItems store (storageId sub ep) ∧
        (seedContent parse store sub ty ep (GenOutcome.response text)).store = store ∧
        (seedContent parse store sub ty ep (GenOutcome.response text)).requested = false := by
  intro parse store sub ty ep text newItems hp
  by_cases hlt : (storedItems store (storageId sub ep)).length < seedLimit sub
  · rw [if_pos hlt]
    simp only [seedContent]
    rw [if_neg (by omega), hp]
    refine ⟨rfl, ?_, rfl⟩
    simp
  · rw [if_neg hlt]
    unfold seedContent
    rw [if_pos (by omega)]
    exact ⟨rfl, rfl, rfl⟩

/-- Witness for `seed_truncation_behavior`: 14 cached items plus 30 parsed
items truncate to exactly 40. -/
theorem seed_truncation_behavior_witness :
    (seedContent parseThirty store14 ("colors") ("VOCABULARY") none
        (GenOutcome.response (some ("thirty")))).items.length = 40 := by
  have h := seed_truncation_behavior parseThirty store14 ("colors") ("VOCABULARY") none
    (some ("thirty")) (List.replicate 30 sampleItem2) (by decide)
  rw [if_pos (by decide :
    (storedItems store14 (storageId ("colors") none)).length < seedLimit ("colors"))] at h
  rw [h.1]
  decide

/-- Claim C4: the mastery (power-rating) percentage is
`min(round(points / 500 * 100), 100)` of accumulated points
(src/components/CategoryGrid.tsx line 21) — monotone non-decreasing in
points, clamped at 100, and non-decreasing as history entries accumulate
under the per-topic aggregation. -/
theorem powerRating_monotone_clamped :
    (∀ p q : Nat, p ≤ q → powerRating p ≤ powerRating q) ∧
    (∀ p : Nat, powerRating p ≤ 100) ∧
    (∀ (history : List HistoryItem) (entry : HistoryItem) (subName : String),
      powerRating (subcategoryStats history subName) ≤
        powerRating (subcategoryStats (history ++ [entry]) subName)) := by
  have mono : ∀ p q : Nat, p ≤ q → powerRating p ≤ powerRating q := by
    intro p q h
    unfold powerRating roundHalfUp
    have hdiv : (2 * (p * 100) + MASTERY_SCORE) / (2 * MASTERY_SCORE) ≤
        (2 * (q * 100) + MASTERY_SCORE) / (2 * MASTERY_SCORE) :=
      Nat.div_le_div_right (by omega)
    omega
  refine ⟨mono, fun p => min_le_right _ _, ?_⟩
  intro history entry subName
  apply mono
  have hsplit : subcategoryStats (history ++ [entry]) subName =
      subcategoryStats history subName +
        ((([entry].filter (fun h => h.subcategory == subName)).map
          (fun h => h.score)).sum) := by
    unfold subcategoryStats
    simp [List.filter_append]
  rw [hsplit]
  exact Nat.le_add_right _ _

/-- Witness for `powerRating_monotone_clamped`: 100 points rate below 300
points, and a huge score still clamps at 100. -/
theorem powerRating_monotone_clamped_witness :
    powerRating 100 ≤ powerRating 300 ∧ powerRating 99999 ≤ 100 :=
  ⟨powerRating_monotone_clamped.1 100 300 (by omega),
   powerRating_monotone_clamped.2.1 99999⟩

/-- Counterexample to claim C5 as stated: an image-generation failure whose
message matches neither credential pattern is re-thrown unchanged
(src/services/geminiService.ts line 240), not swallowed with a neutral
fallback value. -/
theorem image_error_rethrow_counterexample :
    generateEducationalImage (ImageOutcome.failure ("socket hang up")) =
      Except.error (ImageFailure.rethrown ("socket hang up")) ∧
    generateEducationalImage (ImageOutcome.failure ("socket hang up")) ≠
      Except.ok none := by
  refine ⟨rfl, ?_⟩
  intro h
  exact Except.noConfusion h

/-- Claim C5 amended: a failure whose message contains one of the key-reset
patterns surfaces as the sentinel `API_KEY_RESET`; otherwise a message
containing `RESOURCE_EXHAUSTED` or `quota` surfaces as `QUOTA_EXHAUSTED`;
every other failure is re-thrown unchanged to the caller rather than being
swallowed. -/
theorem image_error_classification :
    ∀ message : String,
      ((strIncludes message ("Requested entity was not found") = true ∨
        strIncludes message ("API key not valid") = true) →
        generateEducationalImage (ImageOutcome.failure message) =
          Except.error (ImageFailure.sentinel ("API_KEY_RESET"))) ∧
      (strIncludes message ("Requested entity was not found") = false →
       strIncludes message ("API key not valid") = false →
       (strIncludes message ("RESOURCE_EXHAUSTED") = true ∨
        strIncludes message ("quota") = true) →
        generateEducationalImage (ImageOutcome.failure message) =
          Except.error (ImageFailure.sentinel ("QUOTA_EXHAUSTED"))) ∧
      (strIncludes message ("Requested entity was not found") = false →
       strIncludes message ("API key not valid") = false →
       strIncludes message ("RESOURCE_EXHAUSTED") = false →
       strIncludes message ("quota") = false →
        generateEducationalImage (ImageOutcome.failure message) =
          Except.error (ImageFailure.rethrown message)) := by
  intro message
  refine ⟨?_, ?_, ?_⟩
  · intro h
    simp only [generateEducationalImage, classifyImageError]
    rcases h with h | h <;> simp [h]
  · intro h1 h2 h3
    simp only [generateEducationalImage, classifyImageError]
    rcases h3 with h3 | h3 <;> simp [h1, h2, h3]
  · intro h1 h2 h3 h4
    simp only [generateEducationalImage, classifyImageError]
    simp [h1, h2, h3, h4]

/-- Witness for `image_error_classification`: one message of each class. -/
theorem image_error_classification_witness :
    generateEducationalImage (ImageOutcome.failure ("API key not valid")) =
      Except.error (ImageFailure.sentinel ("API_KEY_RESET")) ∧
    generateEducationalImage (ImageOutcome.failure ("You exceeded your current quota")) =
      Except.error (ImageFailure.sentinel ("QUOTA_EXHAUSTED")) ∧
    generateEducationalImage (ImageOutcome.failure ("fetch failed")) =
      Except.error (ImageFailure.rethrown ("fetch failed")) :=
  ⟨(image_error_classification ("API key not valid")).1 (Or.inr (by decide)),
   (image_error_classification ("You exceeded your current quota")).2.1
     (by decide) (by decide) (Or.inr (by decide)),
   (image_error_classification ("fetch failed")).2.2
     (by decide) (by decide) (by decide) (by decide)⟩

/-- Claim C6 evaluated on the code: stopping a fully active session closes
the remote session handle exactly once and cancels the animation-frame loop
exactly once, but the microphone stream stays live — no statement of
`stopSession` (src/components/SpeakingView.tsx lines 279-288) or of the
unmount cleanup (lines 305-310) ever stops the `getUserMedia` tracks.  The
final conjunct shows the leak is unconditional: no `stopSession` call on any
state changes the microphone fields. -/
theorem stopSession_leaks_microphone :
    ((stopSession activeSpeakingState).sessionHandle = none ∧
     (stopSession activeSpeakingState).sessionOpen = false ∧
     (stopSession activeSpeakingState).sessionCloseCalls = 1 ∧
     (stopSession activeSpeakingState).frameLoopRunning = false ∧
     (stopSession activeSpeakingState).cancelCalls = 1 ∧
     (stopSession activeSpeakingState).isActive = false ∧
     (stopSession activeSpeakingState).micLive = true ∧
     (stopSession activeSpeakingState).micStopCalls = 0) ∧
    (∀ s : SpeakingState,
      (stopSession s).micLive = s.micLive ∧
      (stopSession s).micStopCalls = s.micStopCalls) := by
  refine ⟨⟨rfl, rfl, rfl, rfl, rfl, rfl, rfl, rfl⟩, ?_⟩
  intro s
  simp only [stopSession]
  split <;> split <;> exact ⟨rfl, rfl⟩

/-- Claim C7: within a speaking session, two consecutively scheduled clips
never overlap — the second clip starts no earlier than the first clip's end,
because each start is the later of the cursor (the previous clip's end) and
the current time (src/components/SpeakingView.tsx lines 242-249). -/
theorem playback_no_overlap :
    ∀ (s : PlaybackState) (now1 dur1 now2 dur2 : ℚ),
      (onAudioMessage s now1 dur1).1.start + (onAudioMessage s now1 dur1).1.duration ≤
        (onAudioMessage (onAudioMessage s now1 dur1).2 now2 dur2).1.start := by
  intro s now1 dur1 now2 dur2
  simp only [onAudioMessage]
  exact le_max_left _ _

/-- Counterexample to claim C8 as stated: an interruption arriving while the
audio clock reads 7 leaves the scheduling cursor at 0
(src/components/SpeakingView.tsx line 256 assigns the constant 0), not at
the current time 7. -/
theorem interruption_cursor_counterexample :
    (onInterrupted interruptionScenarioState).2.nextStartTime = 0 ∧
    (onInterrupted interruptionScenarioState).2.nextStartTime ≠ 7 := by
  refine ⟨rfl, ?_⟩
  norm_num [onInterrupted, interruptionScenarioState]

/-- Claim C8 amended: an interruption stops every tracked clip handle,
empties the tracking set and resets the cursor to zero; because the cursor
is clamped to the current time before the next clip is scheduled, the first
clip after an interruption starts exactly at the (non-negative) current
time. -/
theorem interruption_clears_and_resets :
    ∀ (s : PlaybackState) (now dur : ℚ),
      (onInterrupted s).1 = s.sources ∧
      (onInterrupted s).2.sources = [] ∧
      (onInterrupted s).2.nextStartTime = 0 ∧
      (0 ≤ now →
        (onAudioMessage (onInterrupted s).2 now dur).1.start = now) := by
  intro s now dur
  refine ⟨rfl, rfl, rfl, ?_⟩
  intro h
  simp only [onAudioMessage, onInterrupted]
  exact max_eq_right h

/-- Witness for `interruption_clears_and_resets`: after an interruption, the
next clip scheduled while the clock reads 7 starts at 7. -/
theorem interruption_clears_and_resets_witness :
    (onAudioMessage (onInterrupted interruptionScenarioState).2 7 1).1.start = 7 :=
  (interruption_clears_and_resets interruptionScenarioState 7 1).2.2.2 (by norm_num)

/-- Claim C10: `getStoredContent` is total at its interface — an absent key
yields the empty list, and a stored raw value whose parse throws yields the
empty list (src/services/geminiService.ts lines 80-89), so every caller
receives a list. -/
theorem getStoredContent_total :
    ∀ parse store subId,
      (store (contentKey subId) = none → getStoredContent parse store subId = []) ∧
      (∀ raw, store (contentKey subId) = some raw → parse raw = none →
        getStoredContent parse store subId = []) := by
  intro parse store subId
  constructor
  · intro h
    simp [getStoredContent, h]
  · intro raw h hp
    simp [getStoredContent, h, hp]

/-- Witness for `getStoredContent_total`: a store with a missing entry and a
corrupt entry yields the empty list in both cases. -/
theorem getStoredContent_total_witness :
    getStoredContent parseNone rawStoreCorrupt ("animals") = [] ∧
    getStoredContent parseNone rawStoreCorrupt ("colors") = [] :=
  ⟨(getStoredContent_total parseNone rawStoreCorrupt ("animals")).1 (by decide),
   (getStoredContent_total parseNone rawStoreCorrupt ("colors")).2 ("not json")
     (by decide) rfl⟩

end PetitFrancais
